import Mathlib

/-
Verification development for the LoggedInLayout shell (src/LoggedInLayout.tsx).

The component coordinates client-side UI state: a page switcher, an upload
modal with file validation and asynchronous file reading, a toast queue fed
from a notification list, a low-credit warning derived from the credit
balance, and a two-stage plan-selection / payment modal flow.  The handlers
are embedded below as pure functions over explicit state records; the
asynchronous FileReader is embedded by the sequence of events it dispatches
for a given read outcome, and traces of UI events are embedded as lists
folded over step functions.
-/

namespace LoggedInLayout

/-- The five pages of the shell (the Page union type, line 18). -/
inductive Page where
  | generator
  | profile
  | support
  | favorites
  | gallery
deriving DecidableEq

/-- Toast kinds: the type field of the activeToast state (line 24). -/
inductive ToastType where
  | success
  | error
  | info
deriving DecidableEq

/-- The activeToast record: id, message and kind (line 24). -/
structure ToastData where
  id : String
  message : String
  type : ToastType
deriving DecidableEq

/-- A notification record as consumed from the AuthContext collaborator:
id, message, kind, read flag, owner id and creation time.  The creation
time is embedded as the number returned by new Date(createdAt).getTime(). -/
structure Notification where
  id : String
  message : String
  type : ToastType
  read : Bool
  userId : String
  createdAt : Nat
deriving DecidableEq

/-- The current user record as consumed from the AuthContext collaborator:
id and credit balance. -/
structure User where
  id : String
  credits : Int
deriving DecidableEq

/-- A credit plan, opaque to this layer beyond identity (the CreditPlan
type imported on line 11). -/
structure CreditPlan where
  id : String
deriving DecidableEq

/-- JavaScript String.prototype.trim, embedded on the character list:
strip leading and trailing whitespace.  (The built-in String.trim of Lean
is avoided because its byte-position arithmetic does not reduce in the
kernel; this version is extensionally the same on ASCII input.) -/
def jsTrim (s : String) : String :=
  String.mk (((s.data.dropWhile Char.isWhitespace).reverse.dropWhile
    Char.isWhitespace).reverse)

/-- The filter predicate of the toast-selection effect (line 48):
a notification is eligible when it is unread and owned by the current
user. -/
def eligibleFor (u : User) (n : Notification) : Bool :=
  !n.read && n.userId == u.id

/-- The sort order of the toast-selection effect (line 49): ascending
creation time, as compared through getTime(). -/
def createdAtLE (a b : Notification) : Prop :=
  a.createdAt ≤ b.createdAt

instance : DecidableRel createdAtLE :=
  fun a b => inferInstanceAs (Decidable (a.createdAt ≤ b.createdAt))

instance : IsTotal Notification createdAtLE :=
  ⟨fun a b => Nat.le_total a.createdAt b.createdAt⟩

instance : IsTrans Notification createdAtLE :=
  ⟨fun _ _ _ => Nat.le_trans⟩

/-- The sort call of line 49.  Array.prototype.sort is stable, so it is
embedded as a stable insertion sort by creation time. -/
def sortByCreatedAt (l : List Notification) : List Notification :=
  List.insertionSort createdAtLE l

/-- Building the toast record from a notification (lines 53-57). -/
def toastOfNotification (n : Notification) : ToastData :=
  ⟨n.id, n.message, n.type⟩

/-- The toast-selection effect (lines 44-59): when a toast is already
active, or the user or the notification list is absent, nothing changes;
otherwise the unread notifications of the current user are sorted by
creation time ascending and the head, if any, becomes the active toast. -/
def toastSelectionEffect (activeToast : Option ToastData) (user : Option User)
    (notifications : Option (List Notification)) : Option ToastData :=
  match activeToast, user, notifications with
  | some t, _, _ => some t
  | none, none, _ => none
  | none, some _, none => none
  | none, some u, some ns =>
    match sortByCreatedAt (ns.filter (eligibleFor u)) with
    | [] => none
    | n :: _ => some (toastOfNotification n)

/-- The result of closing the active toast (lines 61-66): the list of
markNotificationsAsRead collaborator calls made (each one a list of ids)
and the active toast afterwards. -/
structure ToastCloseResult where
  markNotificationsAsReadCalls : List (List String)
  activeToast : Option ToastData
deriving DecidableEq

/-- handleToastClose (lines 61-66): when a toast is active, call
markNotificationsAsRead with exactly that toast id and clear the toast;
otherwise do nothing. -/
def handleToastClose (activeToast : Option ToastData) : ToastCloseResult :=
  match activeToast with
  | some t => { markNotificationsAsReadCalls := [[t.id]], activeToast := none }
  | none => { markNotificationsAsReadCalls := [], activeToast := none }

/-- State of the low-credit warning controller: the session-scoped
dismissal flag (sessionStorage key lowCreditWarningDismissed, holding
the string true when set) and the showLowCreditWarning flag (line 25). -/
structure WarningState where
  dismissed : Bool
  showLowCreditWarning : Bool
deriving DecidableEq

/-- The low-credit warning effect (lines 31-42): with no user nothing
happens.  Otherwise the dismissal flag is read first; a balance above 5
removes the stored flag; the warning is shown exactly when the balance is
in (0, 5] and the flag read at the start was not set. -/
def lowCreditEffect (user : Option User) (s : WarningState) : WarningState :=
  match user with
  | none => s
  | some u =>
    { dismissed := if 5 < u.credits then false else s.dismissed,
      showLowCreditWarning :=
        if 0 < u.credits ∧ u.credits ≤ 5 ∧ s.dismissed = false then true
        else false }

/-- handleDismissLowCreditWarning (lines 68-71): hide the warning and set
the session dismissal flag. -/
def handleDismissLowCreditWarning (s : WarningState) : WarningState :=
  { dismissed := true, showLowCreditWarning := false }

/-- State of the plan-selection / payment flow: the picker flag of line 28
and the optional selected plan of line 29.  The payment modal is rendered
exactly when a plan is selected (line 187). -/
structure PlanFlowState where
  isSelectPlanModalOpen : Bool
  selectedPlanForPayment : Option CreditPlan
deriving DecidableEq

/-- handlePlanSelected (lines 80-83): close the picker and select the
plan for payment in the same transition. -/
def handlePlanSelected (p : CreditPlan) (s : PlanFlowState) : PlanFlowState :=
  { isSelectPlanModalOpen := false, selectedPlanForPayment := some p }

/-- The events of the plan flow.  openPicker is openSelectPlanModal
(line 73), reachable from the header, the generator and profile pages and
the low-credit warning at any time; selectPlan and closePicker are the
callbacks of SelectPlanModal (line 186), which exist only while the picker
is rendered; closePayment is the onClose of PaymentRequestModal
(line 187), which exists only while a plan is selected. -/
inductive PlanEvent where
  | openPicker
  | selectPlan (p : CreditPlan)
  | closePicker
  | closePayment
deriving DecidableEq

/-- One step of the plan flow.  Callbacks of a modal that is not rendered
cannot fire, so selectPlan and closePicker are no-ops while the picker is
closed and closePayment is a no-op while no plan is selected. -/
def planStep (s : PlanFlowState) : PlanEvent → PlanFlowState
  | PlanEvent.openPicker => { s with isSelectPlanModalOpen := true }
  | PlanEvent.selectPlan p =>
      if s.isSelectPlanModalOpen then handlePlanSelected p s else s
  | PlanEvent.closePicker =>
      if s.isSelectPlanModalOpen then { s with isSelectPlanModalOpen := false }
      else s
  | PlanEvent.closePayment =>
      match s.selectedPlanForPayment with
      | some _ => { s with selectedPlanForPayment := none }
      | none => s

/-- The initial plan-flow state (lines 28-29): picker closed, no plan. -/
def initialPlanFlow : PlanFlowState :=
  { isSelectPlanModalOpen := false, selectedPlanForPayment := none }

/-- Run a sequence of plan-flow events from the initial state. -/
def runPlan (tr : List PlanEvent) : PlanFlowState :=
  tr.foldl planStep initialPlanFlow

/-- Number of payment modals rendered in a state: PaymentRequestModal is
rendered once when a plan is selected, not at all otherwise (line 187). -/
def paymentModalsOpen (s : PlanFlowState) : Nat :=
  match s.selectedPlanForPayment with
  | some _ => 1
  | none => 0

/-- Shell state touched by the low-credit warning actions: the warning
controller state together with the plan flow. -/
structure ShellState where
  warning : WarningState
  planFlow : PlanFlowState
deriving DecidableEq

/-- openSelectPlanModal (line 73). -/
def openSelectPlanModal (s : ShellState) : ShellState :=
  { s with planFlow := { s.planFlow with isSelectPlanModalOpen := true } }

/-- handleBuyCreditsFromWarning (lines 75-78): hide the warning, then open
the plan picker.  The session dismissal flag is not touched. -/
def handleBuyCreditsFromWarning (s : ShellState) : ShellState :=
  openSelectPlanModal
    { s with warning := { s.warning with showLowCreditWarning := false } }

/-- A selected file: MIME type and size in bytes. -/
structure File where
  type : String
  size : Nat
deriving DecidableEq

/-- The outcome of reading a file with FileReader.readAsDataURL: success
with a data URL, or failure. -/
inductive ReadOutcome where
  | success (dataUrl : String)
  | failure
deriving DecidableEq

/-- The FileReader events for which the upload modal registers handlers,
or which it could have registered (lines 120-131). -/
inductive ReaderEvent where
  | load
  | error
  | loadend
deriving DecidableEq

/-- The events a FileReader dispatches to these handlers for a given read
outcome, in dispatch order, per the File API: a successful read fires
load then loadend; a failed read fires error then loadend.  (loadstart
and progress, for which no handler exists here, are omitted.) -/
def readerEventsFor : ReadOutcome → List ReaderEvent
  | ReadOutcome.success _ => [ReaderEvent.load, ReaderEvent.loadend]
  | ReadOutcome.failure => [ReaderEvent.error, ReaderEvent.loadend]

/-- reader.result after the read: the data URL on success, null (embedded
as none) on failure. -/
def readerResult : ReadOutcome → Option String
  | ReadOutcome.success d => some d
  | ReadOutcome.failure => none

/-- State of the upload flow, combining the local state of
UploadImageModal (lines 86-89), the shell flags it writes (lines 23-24),
and the externally observable history: object URLs created (numbered from
0 by creation order, so createdHandleCount is both the count and the next
handle), object URLs revoked, and addUserUploadedImage collaborator calls
as (reader result, title) pairs. -/
structure UploadState where
  imageFile : Option File
  previewUrl : Option Nat
  title : String
  loading : Bool
  isUploadModalOpen : Bool
  activeToast : Option ToastData
  createdHandleCount : Nat
  revokedHandles : List Nat
  addUserUploadedImageCalls : List (Option String × String)
deriving DecidableEq

/-- The allowed MIME types (line 93). -/
def allowedTypes : List String :=
  ["image/jpeg", "image/png", "image/webp"]

/-- The maximum file size in bytes (line 98). -/
def maxSize : Nat :=
  5 * 1024 * 1024

/-- handleFileSelect (lines 92-108): reject with an error toast when the
MIME type is not allowed, else when the size exceeds maxSize; otherwise
store the file, revoke the previous preview URL if any, and create a new
object URL for the file.  The toast id is err- followed by Date.now(),
passed in as now. -/
def handleFileSelect (now : Nat) (f : File) (s : UploadState) : UploadState :=
  if !(allowedTypes.contains f.type) then
    { s with activeToast := some ⟨"err-" ++ toString now,
        "Invalid file type. Use JPG, PNG, or WEBP.", ToastType.error⟩ }
  else if maxSize < f.size then
    { s with activeToast := some ⟨"err-" ++ toString now,
        "File is too large. Max size is 5MB.", ToastType.error⟩ }
  else
    { s with imageFile := some f,
             revokedHandles :=
               match s.previewUrl with
               | some h => s.revokedHandles ++ [h]
               | none => s.revokedHandles,
             previewUrl := some s.createdHandleCount,
             createdHandleCount := s.createdHandleCount + 1 }

/-- Dispatch of one FileReader event to the handlers registered by
handleSubmit (lines 121-131): no handler is registered for load; the
loadend handler registers the upload with (reader.result, title), clears
loading, closes the modal and shows the success toast; the error handler
clears loading and shows the read-failure toast. -/
def dispatchReaderEvent (now : Nat) (outcome : ReadOutcome) (title : String)
    (s : UploadState) : ReaderEvent → UploadState
  | ReaderEvent.load => s
  | ReaderEvent.loadend =>
      { s with addUserUploadedImageCalls :=
                 s.addUserUploadedImageCalls ++ [(readerResult outcome, title)],
               loading := false,
               isUploadModalOpen := false,
               activeToast := some ⟨"succ-" ++ toString now,
                 "Image successfully published to gallery!",
                 ToastType.success⟩ }
  | ReaderEvent.error =>
      { s with loading := false,
               activeToast := some ⟨"err-" ++ toString now,
                 "Failed to read file.", ToastType.error⟩ }

/-- handleSubmit (lines 115-133): return unchanged when no file is
selected or the title is blank after trimming; otherwise set loading and
run the FileReader, whose events for the given outcome are dispatched in
order to the registered handlers. -/
def handleSubmit (now : Nat) (outcome : ReadOutcome) (s : UploadState) :
    UploadState :=
  match s.imageFile with
  | none => s
  | some _ =>
    if jsTrim s.title = "" then s
    else
      (readerEventsFor outcome).foldl
        (dispatchReaderEvent now outcome s.title) { s with loading := true }

/-- The disabled attribute of the submit button (line 159). -/
def submitDisabled (s : UploadState) : Bool :=
  s.loading || s.imageFile == none || jsTrim s.title == ""

/-- Unmounting of UploadImageModal: it is rendered only while
isUploadModalOpen holds (line 189), so when the flag is cleared its local
useState and useRef values are discarded.  No cleanup revokes the preview
URL on unmount. -/
def unmountIfClosed (s : UploadState) : UploadState :=
  if s.isUploadModalOpen then s
  else { s with imageFile := none, previewUrl := none, title := "",
                loading := false }

/-- The user-interface events of the upload flow: opening the modal
(line 173), selecting a file, editing the title, submitting with a given
read outcome, and closing the modal (line 136). -/
inductive UploadEvent where
  | openModal
  | selectFile (now : Nat) (f : File)
  | setTitle (t : String)
  | submit (now : Nat) (outcome : ReadOutcome)
  | closeModal
deriving DecidableEq

/-- One step of the upload flow.  The modal callbacks exist only while
the modal is rendered; whenever the open flag ends up cleared the local
modal state is discarded by unmounting. -/
def uploadStep (s : UploadState) : UploadEvent → UploadState
  | UploadEvent.openModal =>
      if s.isUploadModalOpen then s else { s with isUploadModalOpen := true }
  | UploadEvent.selectFile now f =>
      if s.isUploadModalOpen then handleFileSelect now f s else s
  | UploadEvent.setTitle t =>
      if s.isUploadModalOpen then { s with title := t } else s
  | UploadEvent.submit now outcome =>
      if s.isUploadModalOpen then unmountIfClosed (handleSubmit now outcome s)
      else s
  | UploadEvent.closeModal =>
      if s.isUploadModalOpen then
        unmountIfClosed { s with isUploadModalOpen := false }
      else s

/-- The initial upload-flow state: modal closed, nothing selected, no
history. -/
def initialUploadState : UploadState :=
  { imageFile := none, previewUrl := none, title := "", loading := false,
    isUploadModalOpen := false, activeToast := none, createdHandleCount := 0,
    revokedHandles := [], addUserUploadedImageCalls := [] }

/-- Run a sequence of upload events from the initial state. -/
def runUpload (tr : List UploadEvent) : UploadState :=
  tr.foldl uploadStep initialUploadState

/-- Run a sequence of upload events from a given state. -/
def runUploadFrom (s : UploadState) (tr : List UploadEvent) : UploadState :=
  tr.foldl uploadStep s

/-- Handle 0 has leaked: it was created, it is no longer the current
preview, and it has never been revoked.  Once a state satisfies this, no
later revocation can target handle 0. -/
def handleZeroLost (s : UploadState) : Prop :=
  1 ≤ s.createdHandleCount ∧ s.previewUrl ≠ some 0 ∧ 0 ∉ s.revokedHandles

/-- The page list, in render order (lines 178-182). -/
def pagesList : List Page :=
  [Page.generator, Page.profile, Page.support, Page.favorites, Page.gallery]

/-- Whether the component of page p is mounted while the current page is
c: each page renders under the guard currentPage === p (lines 178-182). -/
def pageMounted (c p : Page) : Bool :=
  c == p

/-- How many of the five page components are mounted for a given current
page. -/
def mountedPageCount (c : Page) : Nat :=
  (pagesList.filter (fun p => pageMounted c p)).length

/-- The target of the onNavigateBack callback passed to each page
(lines 179-182); the generator page receives none. -/
def navigateBackTarget : Page → Option Page
  | Page.generator => none
  | Page.profile => some Page.generator
  | Page.support => some Page.profile
  | Page.favorites => some Page.generator
  | Page.gallery => some Page.generator

/-- The target of the onNavigateToSupport callback (line 179), which only
the profile page receives. -/
def navigateToSupportTarget : Page → Option Page
  | Page.profile => some Page.support
  | _ => none

/-- Example user for concrete witnesses. -/
def exampleUser : User :=
  { id := "u1", credits := 3 }

/-- Example notification list for concrete witnesses: two unread items of
the current user (creation times 20 and 10), one read item, and one unread
item of another user. -/
def exampleNotifications : List Notification :=
  [{ id := "n2", message := "m2", type := ToastType.info, read := false,
     userId := "u1", createdAt := 20 },
   { id := "n1", message := "m1", type := ToastType.info, read := false,
     userId := "u1", createdAt := 10 },
   { id := "n3", message := "m3", type := ToastType.info, read := true,
     userId := "u1", createdAt := 5 },
   { id := "n4", message := "m4", type := ToastType.info, read := false,
     userId := "u2", createdAt := 1 }]

/-- A 6 MiB PNG file. -/
def png6MiB : File :=
  { type := "image/png", size := 6 * 1024 * 1024 }

/-- A JPEG file of exactly 5 MiB. -/
def jpeg5MiB : File :=
  { type := "image/jpeg", size := 5 * 1024 * 1024 }

/-- A 2 MiB JPEG file. -/
def jpeg2MiB : File :=
  { type := "image/jpeg", size := 2 * 1024 * 1024 }

/-- A freshly opened upload modal with nothing selected. -/
def freshUploadOpen : UploadState :=
  { imageFile := none, previewUrl := none, title := "", loading := false,
    isUploadModalOpen := true, activeToast := none, createdHandleCount := 0,
    revokedHandles := [], addUserUploadedImageCalls := [] }

/-- An open upload modal with a valid 2 MiB JPEG selected and a
whitespace-only title. -/
def whitespaceTitleState : UploadState :=
  { imageFile := some jpeg2MiB, previewUrl := some 0, title := "   ",
    loading := false, isUploadModalOpen := true, activeToast := none,
    createdHandleCount := 1, revokedHandles := [],
    addUserUploadedImageCalls := [] }

/-- An open upload modal with a valid 2 MiB JPEG selected and a non-blank
title, ready to submit. -/
def submitReadyState : UploadState :=
  { imageFile := some jpeg2MiB, previewUrl := some 0, title := "Sunset",
    loading := false, isUploadModalOpen := true, activeToast := none,
    createdHandleCount := 1, revokedHandles := [],
    addUserUploadedImageCalls := [] }

/-- Open the modal, select a valid file (acquiring preview handle 0),
then close the modal. -/
def leakTrace : List UploadEvent :=
  [UploadEvent.openModal, UploadEvent.selectFile 1 jpeg2MiB,
   UploadEvent.closeModal]

/-- Example plan for concrete witnesses. -/
def demoPlan : CreditPlan :=
  { id := "basic" }

/-- Open the picker, then choose the example plan. -/
def demoPlanTrace : List PlanEvent :=
  [PlanEvent.openPicker, PlanEvent.selectPlan demoPlan]

/-- The head of the sorted list is an element of the input list. -/
lemma sortByCreatedAt_head_mem {l : List Notification} {n : Notification}
    {rest : List Notification} (h : sortByCreatedAt l = n :: rest) : n ∈ l := by
  have hperm := List.perm_insertionSort createdAtLE l
  rw [sortByCreatedAt] at h
  rw [h] at hperm
  exact hperm.mem_iff.mp (List.mem_cons_self _ _)

/-- The head of the sorted list has minimal creation time in the input
list. -/
lemma sortByCreatedAt_head_min {l : List Notification} {n : Notification}
    {rest : List Notification} (h : sortByCreatedAt l = n :: rest) :
    ∀ m ∈ l, n.createdAt ≤ m.createdAt := by
  intro m hm
  have hperm := List.perm_insertionSort createdAtLE l
  have hsorted := List.sorted_insertionSort createdAtLE l
  rw [sortByCreatedAt] at h
  rw [h] at hperm hsorted
  have hmem : m ∈ n :: rest := hperm.mem_iff.mpr hm
  rcases List.mem_cons.mp hmem with rfl | hmr
  · exact Nat.le_refl _
  · exact (List.sorted_cons.mp hsorted).1 m hmr

/-- C2: eligibility for toast display is exactly read = false together
with ownership by the current user; with a toast already active the
effect changes nothing; with the user or the notification list absent no
toast is derived; when a toast is derived it is built from an eligible
notification of minimal creation time; and when an eligible notification
exists one is derived. -/
theorem toastSelection_C2 :
    (∀ u n, eligibleFor u n = true ↔ (n.read = false ∧ n.userId = u.id))
    ∧ (∀ t u ns, toastSelectionEffect (some t) u ns = some t)
    ∧ (∀ ns, toastSelectionEffect none none ns = none)
    ∧ (∀ u, toastSelectionEffect none (some u) none = none)
    ∧ (∀ u ns t, toastSelectionEffect none (some u) (some ns) = some t →
        ∃ n, n ∈ ns ∧ eligibleFor u n = true ∧ t = toastOfNotification n ∧
          ∀ m ∈ ns, eligibleFor u m = true → n.createdAt ≤ m.createdAt)
    ∧ (∀ u ns n, n ∈ ns → eligibleFor u n = true →
        (toastSelectionEffect none (some u) (some ns)).isSome = true) := by
  refine ⟨fun u n => ?_, fun t u ns => rfl, fun ns => rfl, fun u => rfl,
    fun u ns t h => ?_, fun u ns n hmem helig => ?_⟩
  · simp [eligibleFor, Bool.and_eq_true, Bool.not_eq_true', beq_iff_eq]
  · rcases hsort : sortByCreatedAt (ns.filter (eligibleFor u)) with _ | ⟨m, rest⟩
    · simp [toastSelectionEffect, hsort] at h
    · simp only [toastSelectionEffect, hsort] at h
      have hmf : m ∈ ns.filter (eligibleFor u) := sortByCreatedAt_head_mem hsort
      have hmin := sortByCreatedAt_head_min hsort
      refine ⟨m, (List.mem_filter.mp hmf).1, (List.mem_filter.mp hmf).2,
        (Option.some.inj h).symm, fun k hk hek => ?_⟩
      exact hmin k (List.mem_filter.mpr ⟨hk, hek⟩)
  · have hf : n ∈ ns.filter (eligibleFor u) := List.mem_filter.mpr ⟨hmem, helig⟩
    have hs : n ∈ sortByCreatedAt (ns.filter (eligibleFor u)) := by
      rw [sortByCreatedAt]
      exact (List.perm_insertionSort createdAtLE _).mem_iff.mpr hf
    rcases hsort : sortByCreatedAt (ns.filter (eligibleFor u)) with _ | ⟨m, rest⟩
    · rw [hsort] at hs
      cases hs
    · simp [toastSelectionEffect, hsort]

/-- C2 witness: on the example inputs the derived toast is the unread
notification n1 of user u1 with the earliest creation time. -/
theorem toastSelection_C2_witness :
    ∃ n, n ∈ exampleNotifications ∧ eligibleFor exampleUser n = true ∧
      (⟨"n1", "m1", ToastType.info⟩ : ToastData) = toastOfNotification n ∧
      ∀ m ∈ exampleNotifications, eligibleFor exampleUser m = true →
        n.createdAt ≤ m.createdAt :=
  toastSelection_C2.2.2.2.2.1 exampleUser exampleNotifications
    ⟨"n1", "m1", ToastType.info⟩ (by decide)

/-- The recomputed warning flag is set exactly when the balance is in
(0, 5] and the dismissal flag read at the start is unset. -/
lemma lowCreditEffect_show_iff (w : User) (t : WarningState) :
    (lowCreditEffect (some w) t).showLowCreditWarning = true ↔
      (0 < w.credits ∧ w.credits ≤ 5 ∧ t.dismissed = false) := by
  by_cases h : 0 < w.credits ∧ w.credits ≤ 5 ∧ t.dismissed = false
  · simp [lowCreditEffect, h]
  · simp [lowCreditEffect, if_neg h, h]

/-- A balance above 5 clears the session dismissal flag. -/
lemma lowCreditEffect_clears (w : User) (t : WarningState)
    (h : 5 < w.credits) : (lowCreditEffect (some w) t).dismissed = false := by
  simp [lowCreditEffect, h]

/-- C3: after the recompute the warning is visible exactly when the
balance is in (0, 5] and the dismissal flag read at the start is unset; a
balance above 5 clears the dismissal flag, so a later recompute with a
balance back in (0, 5] shows the warning again even from a dismissed
state. -/
theorem lowCreditWarning_C3 (u v : User) (s : WarningState)
    (hu : 5 < u.credits) (hv0 : 0 < v.credits) (hv5 : v.credits ≤ 5) :
    (∀ w t, ((lowCreditEffect (some w) t).showLowCreditWarning = true ↔
        (0 < w.credits ∧ w.credits ≤ 5 ∧ t.dismissed = false)))
    ∧ (lowCreditEffect (some u) s).dismissed = false
    ∧ (lowCreditEffect (some v) (lowCreditEffect (some u) s)).showLowCreditWarning
        = true :=
  ⟨lowCreditEffect_show_iff, lowCreditEffect_clears u s hu,
    (lowCreditEffect_show_iff v _).mpr ⟨hv0, hv5, lowCreditEffect_clears u s hu⟩⟩

/-- C3 witness: credits 6 clear a set dismissal flag and a later drop to
credits 3 shows the warning again. -/
theorem lowCreditWarning_C3_witness :
    (5 : Int) < (6 : Int) ∧ (0 : Int) < (3 : Int) ∧ (3 : Int) ≤ (5 : Int) ∧
    (lowCreditEffect (some { id := "u", credits := 3 })
      (lowCreditEffect (some { id := "u", credits := 6 })
        { dismissed := true, showLowCreditWarning := false })).showLowCreditWarning
      = true :=
  ⟨by decide, by decide, by decide,
    (lowCreditWarning_C3 { id := "u", credits := 6 } { id := "u", credits := 3 }
      { dismissed := true, showLowCreditWarning := false }
      (by decide) (by decide) (by decide)).2.2⟩

/-- C4: file validation applies the type check first and the size check
second, the first failure producing its error toast and leaving the rest
of the state unchanged (no stored file, no preview); a file passing both
checks, including one of exactly maxSize bytes, is stored and gets a
fresh preview handle. -/
theorem fileSelect_C4 (now : Nat) (f : File) (s : UploadState) :
    (f.type ∉ allowedTypes →
       handleFileSelect now f s =
         { s with activeToast := some ⟨"err-" ++ toString now,
             "Invalid file type. Use JPG, PNG, or WEBP.", ToastType.error⟩ })
    ∧ (f.type ∈ allowedTypes → maxSize < f.size →
       handleFileSelect now f s =
         { s with activeToast := some ⟨"err-" ++ toString now,
             "File is too large. Max size is 5MB.", ToastType.error⟩ })
    ∧ (f.type ∈ allowedTypes → f.size ≤ maxSize →
       (handleFileSelect now f s).imageFile = some f
       ∧ (handleFileSelect now f s).previewUrl = some s.createdHandleCount
       ∧ (handleFileSelect now f s).createdHandleCount
           = s.createdHandleCount + 1) := by
  refine ⟨fun h => ?_, fun h1 h2 => ?_, fun h1 h2 => ?_⟩
  · simp [handleFileSelect, h]
  · simp [handleFileSelect, h1, h2]
  · simp [handleFileSelect, h1, Nat.not_lt.mpr h2]

/-- C4 witness: a 6 MiB PNG is rejected with the size error and leaves
the fresh state unchanged apart from the toast; a JPEG of exactly 5 MiB
is accepted and receives preview handle 0. -/
theorem fileSelect_C4_witness :
    handleFileSelect 7 png6MiB freshUploadOpen =
      { freshUploadOpen with activeToast := some ⟨"err-" ++ toString 7,
          "File is too large. Max size is 5MB.", ToastType.error⟩ }
    ∧ (handleFileSelect 8 jpeg5MiB freshUploadOpen).imageFile = some jpeg5MiB
    ∧ (handleFileSelect 8 jpeg5MiB freshUploadOpen).previewUrl = some 0
    ∧ (handleFileSelect 8 jpeg5MiB freshUploadOpen).createdHandleCount = 1 :=
  ⟨(fileSelect_C4 7 png6MiB freshUploadOpen).2.1 (by decide) (by decide),
   (fileSelect_C4 8 jpeg5MiB freshUploadOpen).2.2 (by decide) (by decide)⟩

/-- C5: with no selected file or a title blank after trimming, submitting
returns the state unchanged (in particular no registration call is
appended) and the submit control is disabled. -/
theorem submitGuard_C5 (now : Nat) (outcome : ReadOutcome) (s : UploadState)
    (h : s.imageFile = none ∨ jsTrim s.title = "") :
    handleSubmit now outcome s = s
    ∧ submitDisabled s = true
    ∧ (handleSubmit now outcome s).addUserUploadedImageCalls
        = s.addUserUploadedImageCalls := by
  have hsub : handleSubmit now outcome s = s := by
    rcases h with h | h
    · simp [handleSubmit, h]
    · rcases hf : s.imageFile with _ | f
      · simp [handleSubmit, hf]
      · simp [handleSubmit, hf, h]
  refine ⟨hsub, ?_, by rw [hsub]⟩
  rcases h with h | h
  · simp [submitDisabled, h]
  · simp [submitDisabled, h]

/-- C5 witness: a valid 2 MiB JPEG with a whitespace-only title leaves
the state unchanged on submit and the submit control disabled. -/
theorem submitGuard_C5_witness :
    jsTrim whitespaceTitleState.title = ""
    ∧ handleSubmit 9 (ReadOutcome.success "data:image/jpeg;base64,AAAA")
        whitespaceTitleState = whitespaceTitleState
    ∧ submitDisabled whitespaceTitleState = true :=
  ⟨by decide,
   (submitGuard_C5 9 (ReadOutcome.success "data:image/jpeg;base64,AAAA")
      whitespaceTitleState (Or.inr (by decide))).1,
   (submitGuard_C5 9 (ReadOutcome.success "data:image/jpeg;base64,AAAA")
      whitespaceTitleState (Or.inr (by decide))).2.1⟩

/-- C1: evaluation of submit at a ready state.  On a successful read,
exactly one registration call with (data, title) is made and the modal
closes.  On a failed read, however, the loadend event of the reader fires
after the error event, so the handler of lines 121-127 still runs: a
registration call with a null result is made, the modal closes, and the
success toast replaces the read-failure one — the failure path is not
exclusive of the success actions as the specification requires. -/
theorem submitReadFailure_C1 :
    ((handleSubmit 41 (ReadOutcome.success "data:image/jpeg;base64,AAAA")
        submitReadyState).addUserUploadedImageCalls
      = [(some "data:image/jpeg;base64,AAAA", "Sunset")]
     ∧ (handleSubmit 41 (ReadOutcome.success "data:image/jpeg;base64,AAAA")
          submitReadyState).isUploadModalOpen = false
     ∧ (handleSubmit 41 (ReadOutcome.success "data:image/jpeg;base64,AAAA")
          submitReadyState).activeToast
        = some ⟨"succ-" ++ toString 41,
            "Image successfully published to gallery!", ToastType.success⟩)
    ∧ ((handleSubmit 42 ReadOutcome.failure
          submitReadyState).addUserUploadedImageCalls = [(none, "Sunset")]
       ∧ (handleSubmit 42 ReadOutcome.failure
            submitReadyState).isUploadModalOpen = false
       ∧ (handleSubmit 42 ReadOutcome.failure submitReadyState).activeToast
          = some ⟨"succ-" ++ toString 42,
              "Image successfully published to gallery!", ToastType.success⟩) := by
  decide

/-- Run of the plan flow commutes with appending one event. -/
lemma runPlan_append (tr : List PlanEvent) (e : PlanEvent) :
    runPlan (tr ++ [e]) = planStep (runPlan tr) e := by
  simp [runPlan, List.foldl_append]

/-- Whenever a plan is selected for payment, the trace contains the
selection of exactly that plan, fired at a point where the picker was
open. -/
lemma paying_passed_picking (tr : List PlanEvent) (p : CreditPlan)
    (h : (runPlan tr).selectedPlanForPayment = some p) :
    ∃ t1 t2, tr = t1 ++ PlanEvent.selectPlan p :: t2
      ∧ (runPlan t1).isSelectPlanModalOpen = true := by
  induction tr using List.reverseRecOn with
  | nil => simp [runPlan, initialPlanFlow] at h
  | append_singleton t e ih =>
    rw [runPlan_append] at h
    cases e with
    | openPicker =>
      simp only [planStep] at h
      obtain ⟨t1, t2, rfl, hp⟩ := ih h
      exact ⟨t1, t2 ++ [PlanEvent.openPicker], by simp, hp⟩
    | selectPlan q =>
      by_cases hpick : (runPlan t).isSelectPlanModalOpen = true
      · simp only [planStep, hpick, if_true, handlePlanSelected] at h
        obtain rfl : q = p := Option.some.inj h
        exact ⟨t, [], rfl, hpick⟩
      · rw [planStep, if_neg (by simpa using hpick)] at h
        obtain ⟨t1, t2, rfl, hp⟩ := ih h
        exact ⟨t1, t2 ++ [PlanEvent.selectPlan q], by simp, hp⟩
    | closePicker =>
      by_cases hpick : (runPlan t).isSelectPlanModalOpen = true
      · rw [planStep, if_pos (by simpa using hpick)] at h
        simp only at h
        obtain ⟨t1, t2, rfl, hp⟩ := ih h
        exact ⟨t1, t2 ++ [PlanEvent.closePicker], by simp, hp⟩
      · rw [planStep, if_neg (by simpa using hpick)] at h
        obtain ⟨t1, t2, rfl, hp⟩ := ih h
        exact ⟨t1, t2 ++ [PlanEvent.closePicker], by simp, hp⟩
    | closePayment =>
      rcases hsel : (runPlan t).selectedPlanForPayment with _ | r
      · rw [planStep, hsel] at h
        rw [hsel] at h
        cases h
      · rw [planStep, hsel] at h
        cases h

/-- Closing the payment modal always clears the selected plan. -/
lemma closePayment_clears (s : PlanFlowState) :
    (planStep s PlanEvent.closePayment).selectedPlanForPayment = none := by
  rcases s with ⟨po, _ | r⟩ <;> simp [planStep]

/-- Closing the payment modal from a state where the picker is closed
restores the initial state. -/
lemma closePayment_from_closed (s : PlanFlowState)
    (h : s.isSelectPlanModalOpen = false) :
    planStep s PlanEvent.closePayment = initialPlanFlow := by
  rcases s with ⟨po, _ | r⟩ <;> simp_all [planStep, initialPlanFlow]

/-- C6 counterexample: the buy-credits trigger stays wired while the
payment modal is open (header, line 172, and warning banner, line 192),
so the picker can reopen during payment; closing the payment modal then
leaves the picker open — the flow is not back to the idle state. -/
theorem planFlow_C6_counterexample :
    runPlan [PlanEvent.openPicker, PlanEvent.selectPlan demoPlan,
      PlanEvent.openPicker, PlanEvent.closePayment]
      = { isSelectPlanModalOpen := true, selectedPlanForPayment := none }
    ∧ ({ isSelectPlanModalOpen := true, selectedPlanForPayment := none }
        : PlanFlowState) ≠ initialPlanFlow := by
  decide

/-- C6 (amended): a plan is paying only after its selection fired with
the picker open; selecting a plan closes the picker and opens the payment
modal for it in one transition; closing the payment modal clears the
payment slot, and restores the idle state whenever the picker is closed
at that moment; at most one payment modal is ever open. -/
theorem planFlow_C6_amended :
    (∀ tr p, (runPlan tr).selectedPlanForPayment = some p →
       ∃ t1 t2, tr = t1 ++ PlanEvent.selectPlan p :: t2
         ∧ (runPlan t1).isSelectPlanModalOpen = true)
    ∧ (∀ s p, s.isSelectPlanModalOpen = true →
       planStep s (PlanEvent.selectPlan p) =
         { isSelectPlanModalOpen := false, selectedPlanForPayment := some p })
    ∧ (∀ tr, (runPlan (tr ++ [PlanEvent.closePayment])).selectedPlanForPayment
        = none)
    ∧ (∀ tr, (runPlan tr).isSelectPlanModalOpen = false →
       runPlan (tr ++ [PlanEvent.closePayment]) = initialPlanFlow)
    ∧ (∀ s, paymentModalsOpen s ≤ 1) := by
  refine ⟨paying_passed_picking, fun s p h => ?_, fun tr => ?_, fun tr h => ?_,
    fun s => ?_⟩
  · simp [planStep, h, handlePlanSelected]
  · rw [runPlan_append]
    exact closePayment_clears _
  · rw [runPlan_append]
    exact closePayment_from_closed _ h
  · rcases s with ⟨po, _ | r⟩ <;> simp [paymentModalsOpen]

/-- C6 witness: on the two-event demo trace the selected plan is indeed
preceded by its selection with the picker open. -/
theorem planFlow_C6_amended_witness :
    ∃ t1 t2, demoPlanTrace = t1 ++ PlanEvent.selectPlan demoPlan :: t2
      ∧ (runPlan t1).isSelectPlanModalOpen = true :=
  planFlow_C6_amended.1 demoPlanTrace demoPlan (by decide)

/-- C8 counterexample: the navigate-back affordance of the profile page
targets the generator page, not the support page (line 179). -/
theorem pageRouting_C8_counterexample :
    navigateBackTarget Page.profile = some Page.generator
    ∧ navigateBackTarget Page.profile ≠ some Page.support := by
  decide

/-- C8 (amended): exactly one of the five page components is mounted for
every value of the current-page enum; the navigate-back targets are
profile to generator, support to profile, favorites to generator and
gallery to generator, while profile separately exposes a
navigate-to-support affordance targeting support. -/
theorem pageRouting_C8_amended :
    (∀ c : Page, mountedPageCount c = 1)
    ∧ navigateBackTarget Page.profile = some Page.generator
    ∧ navigateToSupportTarget Page.profile = some Page.support
    ∧ navigateBackTarget Page.support = some Page.profile
    ∧ navigateBackTarget Page.favorites = some Page.generator
    ∧ navigateBackTarget Page.gallery = some Page.generator := by
  refine ⟨fun c => ?_, rfl, rfl, rfl, rfl, rfl⟩
  cases c <;> rfl

/-- C9: closing the active toast calls markNotificationsAsRead with
exactly the id of that toast, whatever it is; in particular the synthetic
ids of upload-flow toasts (err- or succ- followed by a timestamp), which
correspond to no notification record, are passed through unchanged. -/
theorem toastClose_C9 :
    (∀ t : ToastData, handleToastClose (some t) =
       { markNotificationsAsReadCalls := [[t.id]], activeToast := none })
    ∧ (∀ now f s, f.type ∉ allowedTypes →
        handleToastClose (handleFileSelect now f s).activeToast =
          { markNotificationsAsReadCalls := [["err-" ++ toString now]],
            activeToast := none })
    ∧ (∀ now d s, s.imageFile.isSome = true → jsTrim s.title ≠ "" →
        handleToastClose
            (handleSubmit now (ReadOutcome.success d) s).activeToast =
          { markNotificationsAsReadCalls := [["succ-" ++ toString now]],
            activeToast := none }) := by
  refine ⟨fun t => rfl, fun now f s h => ?_, fun now d s h1 h2 => ?_⟩
  · simp [handleFileSelect, h, handleToastClose]
  · rcases hf : s.imageFile with _ | f
    · rw [hf] at h1
      cases h1
    · simp [handleSubmit, hf, h2, readerEventsFor, dispatchReaderEvent,
        handleToastClose]

/-- C9 witness: the toast of a rejected GIF selection carries a synthetic
err- id and closing it passes exactly that id to markNotificationsAsRead. -/
theorem toastClose_C9_witness :
    handleToastClose
        (handleFileSelect 13 { type := "image/gif", size := 100 }
          freshUploadOpen).activeToast =
      { markNotificationsAsReadCalls := [["err-" ++ toString 13]],
        activeToast := none } :=
  toastClose_C9.2.1 13 { type := "image/gif", size := 100 } freshUploadOpen
    (by decide)

/-- C10: triggering buy-credits from the warning hides the warning and
opens the plan picker without touching the session dismissal flag; hence
if the flag was unset, a later recompute with a balance still in (0, 5]
shows the warning again. -/
theorem buyCreditsFromWarning_C10 (s : ShellState) (u : User)
    (h0 : 0 < u.credits) (h5 : u.credits ≤ 5) :
    (handleBuyCreditsFromWarning s).warning.showLowCreditWarning = false
    ∧ (handleBuyCreditsFromWarning s).planFlow.isSelectPlanModalOpen = true
    ∧ (handleBuyCreditsFromWarning s).warning.dismissed = s.warning.dismissed
    ∧ (s.warning.dismissed = false →
        (lowCreditEffect (some u)
          (handleBuyCreditsFromWarning s).warning).showLowCreditWarning
          = true) := by
  refine ⟨rfl, rfl, rfl, fun hd => ?_⟩
  exact (lowCreditEffect_show_iff u _).mpr ⟨h0, h5, hd⟩

/-- C10 witness: from a visible, undismissed warning, buy-credits hides
the warning, opens the picker, and a recompute at balance 2 shows the
warning again. -/
theorem buyCreditsFromWarning_C10_witness :
    (handleBuyCreditsFromWarning
      { warning := { dismissed := false, showLowCreditWarning := true },
        planFlow := initialPlanFlow }).warning.showLowCreditWarning = false
    ∧ (handleBuyCreditsFromWarning
      { warning := { dismissed := false, showLowCreditWarning := true },
        planFlow := initialPlanFlow }).planFlow.isSelectPlanModalOpen = true
    ∧ (lowCreditEffect (some { id := "u", credits := 2 })
        (handleBuyCreditsFromWarning
          { warning := { dismissed := false, showLowCreditWarning := true },
            planFlow := initialPlanFlow }).warning).showLowCreditWarning
        = true :=
  ⟨(buyCreditsFromWarning_C10
      { warning := { dismissed := false, showLowCreditWarning := true },
        planFlow := initialPlanFlow } { id := "u", credits := 2 }
      (by decide) (by decide)).1,
   (buyCreditsFromWarning_C10
      { warning := { dismissed := false, showLowCreditWarning := true },
        planFlow := initialPlanFlow } { id := "u", credits := 2 }
      (by decide) (by decide)).2.1,
   (buyCreditsFromWarning_C10
      { warning := { dismissed := false, showLowCreditWarning := true },
        planFlow := initialPlanFlow } { id := "u", credits := 2 }
      (by decide) (by decide)).2.2.2 rfl⟩

/-- File selection preserves a lost handle 0: a rejected file changes
nothing relevant, and an accepted file revokes only the current preview
(which is not 0) and creates a fresh handle (which is not 0 either,
since at least one handle exists already). -/
lemma handleFileSelect_lost (now : Nat) (f : File) (s : UploadState)
    (h : handleZeroLost s) : handleZeroLost (handleFileSelect now f s) := by
  obtain ⟨h1, h2, h3⟩ := h
  unfold handleFileSelect
  split
  · exact ⟨h1, h2, h3⟩
  · split
    · exact ⟨h1, h2, h3⟩
    · refine ⟨by simp, by simp; omega, ?_⟩
      rcases hp : s.previewUrl with _ | k
      · simpa using h3
      · have hk : k ≠ 0 := fun hk0 => h2 (by rw [hp, hk0])
        simp only [hp, List.mem_append, List.mem_singleton]
        rintro (hin | rfl)
        · exact h3 hin
        · exact hk rfl

/-- Reader-event dispatch never touches the preview handle, the handle
counter or the revocation history. -/
lemma dispatchReaderEvent_handles (now : Nat) (o : ReadOutcome) (ti : String)
    (s : UploadState) (e : ReaderEvent) :
    (dispatchReaderEvent now o ti s e).previewUrl = s.previewUrl
    ∧ (dispatchReaderEvent now o ti s e).createdHandleCount
        = s.createdHandleCount
    ∧ (dispatchReaderEvent now o ti s e).revokedHandles = s.revokedHandles := by
  cases e <;> exact ⟨rfl, rfl, rfl⟩

/-- Folding reader events never touches the preview handle, the handle
counter or the revocation history. -/
lemma readerFold_handles (now : Nat) (o : ReadOutcome) (ti : String)
    (evs : List ReaderEvent) (s : UploadState) :
    ((evs.foldl (dispatchReaderEvent now o ti) s).previewUrl = s.previewUrl
    ∧ (evs.foldl (dispatchReaderEvent now o ti) s).createdHandleCount
        = s.createdHandleCount
    ∧ (evs.foldl (dispatchReaderEvent now o ti) s).revokedHandles
        = s.revokedHandles) := by
  induction evs generalizing s with
  | nil => exact ⟨rfl, rfl, rfl⟩
  | cons e evs ih =>
    have hd := dispatchReaderEvent_handles now o ti s e
    have ht := ih (dispatchReaderEvent now o ti s e)
    exact ⟨by rw [List.foldl_cons, ht.1, hd.1],
      by rw [List.foldl_cons, ht.2.1, hd.2.1],
      by rw [List.foldl_cons, ht.2.2, hd.2.2]⟩

/-- Submission preserves a lost handle 0. -/
lemma handleSubmit_lost (now : Nat) (o : ReadOutcome) (s : UploadState)
    (h : handleZeroLost s) : handleZeroLost (handleSubmit now o s) := by
  obtain ⟨h1, h2, h3⟩ := h
  rcases hf : s.imageFile with _ | f
  · simp only [handleSubmit, hf]
    exact ⟨h1, h2, h3⟩
  · simp only [handleSubmit, hf]
    split
    · exact ⟨h1, h2, h3⟩
    · have hr := readerFold_handles now o s.title (readerEventsFor o)
        { s with imageFile := some f, loading := true }
      exact ⟨by rw [hr.2.1]; exact h1, by rw [hr.1]; exact h2,
        by rw [hr.2.2]; exact h3⟩

/-- Unmounting preserves a lost handle 0: it only discards local state,
it revokes nothing. -/
lemma unmountIfClosed_lost (s : UploadState) (h : handleZeroLost s) :
    handleZeroLost (unmountIfClosed s) := by
  obtain ⟨h1, h2, h3⟩ := h
  unfold unmountIfClosed
  split
  · exact ⟨h1, h2, h3⟩
  · exact ⟨h1, by simp, h3⟩

/-- Every upload event preserves a lost handle 0. -/
lemma uploadStep_lost (s : UploadState) (e : UploadEvent)
    (h : handleZeroLost s) : handleZeroLost (uploadStep s e) := by
  obtain ⟨h1, h2, h3⟩ := h
  cases e with
  | openModal =>
    simp only [uploadStep]
    split
    · exact ⟨h1, h2, h3⟩
    · exact ⟨h1, h2, h3⟩
  | selectFile now f =>
    simp only [uploadStep]
    split
    · exact handleFileSelect_lost now f s ⟨h1, h2, h3⟩
    · exact ⟨h1, h2, h3⟩
  | setTitle t =>
    simp only [uploadStep]
    split
    · exact ⟨h1, h2, h3⟩
    · exact ⟨h1, h2, h3⟩
  | submit now o =>
    simp only [uploadStep]
    split
    · exact unmountIfClosed_lost _ (handleSubmit_lost now o s ⟨h1, h2, h3⟩)
    · exact ⟨h1, h2, h3⟩
  | closeModal =>
    simp only [uploadStep]
    split
    · exact unmountIfClosed_lost _ ⟨h1, h2, h3⟩
    · exact ⟨h1, h2, h3⟩

/-- A lost handle 0 stays lost under any further sequence of upload
events. -/
lemma runUploadFrom_lost (tr : List UploadEvent) (s : UploadState)
    (h : handleZeroLost s) : handleZeroLost (runUploadFrom s tr) := by
  induction tr generalizing s with
  | nil => exact h
  | cons e tr ih => exact ih (uploadStep s e) (uploadStep_lost s e h)

/-- C7: after opening the modal, selecting a valid file (acquiring
preview handle 0) and closing the modal, the handle was created but never
revoked — the close path does not release it — and no continuation of the
trace can ever revoke it, because the unmounted modal state no longer
references it. -/
theorem previewHandleLeak_C7 :
    (runUpload leakTrace).createdHandleCount = 1
    ∧ (runUpload leakTrace).revokedHandles = []
    ∧ (runUpload leakTrace).previewUrl = none
    ∧ ∀ tr, 0 ∉ (runUploadFrom (runUpload leakTrace) tr).revokedHandles :=
  ⟨by decide, by decide, by decide,
    fun tr => (runUploadFrom_lost tr (runUpload leakTrace)
      ⟨by decide, by decide, by decide⟩).2.2⟩

end LoggedInLayout
